import Mathlib

/-!
Shallow embedding of the DS3231 real-time-clock driver stack
(`src/avr/src/ds3231.c`, `src/avr/src/twi.c`, headers `ds3231.h`, `twi.h`)
and proofs about the properties its specification states.

Modelling conventions:
* every C `uint8_t` is a `Nat`; wherever the C code can produce a value
  outside `0..255` that is then stored in a `uint8_t`, an explicit `% 256`
  (or `Int` arithmetic followed by `% 256` for subtractions that go
  negative) records the truncation;
* byte buffers (`uint8_t msgBuf[...]`) are `List Nat`; uninitialised
  array contents are modelled as 0 (no claim depends on them);
* the remote device on the two-wire bus is an oracle (`Remote`): for each
  byte the master drives on the bus it answers acknowledge or
  not-acknowledge, and for each byte the master clocks in it supplies the
  byte value;
* the hardware-flag checks of `twi.c` that read the AVR `USISR` register
  (the `NOISE_TESTING` and `SIGNAL_VERIFY` blocks) depend on electrical
  bus state outside the program; the model takes them as passing, i.e. it
  describes a noise-free bus.  The `PARAM_VERIFICATION` buffer-size check
  is modelled; the `RAMEND` pointer bound is a memory-layout check with no
  counterpart in the embedding.
-/

namespace DS3231

/-- Slave address of the DS3231 with the direction bit set to "read"
(`#define READ_ADD 0xD1`, ds3231.c line 72). -/
def READ_ADD : Nat := 0xD1

/-- Slave address of the DS3231 with the direction bit set to "write"
(`#define WRITE_ADD 0xD0`, ds3231.c line 73). -/
def WRITE_ADD : Nat := 0xD0

/-- Address of the "Seconds" register (`#define SECDR 0x00`). -/
def SECDR : Nat := 0x00

/-- Address of the "Alarm 1 seconds" register (`#define AL1DR 0x07`). -/
def AL1DR : Nat := 0x07

/-- Address of the "Alarm 2 minutes" register (`#define AL2DR 0x0B`). -/
def AL2DR : Nat := 0x0B

/-- Address of the "Control" register (`#define CTRDR 0x0E`). -/
def CTRDR : Nat := 0x0E

/-- Address of the "Status" register (`#define STSDR 0x0F`). -/
def STSDR : Nat := 0x0F

/-- Alarm selector for alarm 1 (`#define ALARM_1 0`, ds3231.h). -/
def ALARM_1 : Nat := 0

/-- Alarm selector for alarm 2 (`#define ALARM_2 1`, ds3231.h). -/
def ALARM_2 : Nat := 1

/-- Alarm once a second (`#define ALARM_SEC 0`, ds3231.h). -/
def ALARM_SEC : Nat := 0

/-- Alarm when seconds match (`#define ALARM_SEC_M 1`, ds3231.h). -/
def ALARM_SEC_M : Nat := 1

/-- Alarm when minutes and seconds match (`#define ALARM_MIN_M 2`). -/
def ALARM_MIN_M : Nat := 2

/-- Alarm when hours, minutes and seconds match (`#define ALARM_HOUR_M 3`). -/
def ALARM_HOUR_M : Nat := 3

/-- Alarm when date, hours, minutes and seconds match (`#define ALARM_MDAY_M 4`). -/
def ALARM_MDAY_M : Nat := 4

/-- Alarm when week day, hours, minutes and seconds match (`#define ALARM_WDAY_M 5`). -/
def ALARM_WDAY_M : Nat := 5

/-- Alarm once a minute (`#define ALARM_MIN 6`, ds3231.h). -/
def ALARM_MIN : Nat := 6

/-- Error code: transmission buffer is empty (`twi.h`). -/
def TWI_NO_DATA : Nat := 0x00

/-- Error code: the slave did not acknowledge all data (`twi.h`). -/
def TWI_NO_ACK_ON_DATA : Nat := 0x05

/-- Error code: the slave did not acknowledge the address (`twi.h`). -/
def TWI_NO_ACK_ON_ADDRESS : Nat := 0x06

/-- `dec2bcd` (ds3231.c lines 90-93): decimal `uint8_t` to binary coded
decimal, `return ((d / 10 * 16) + (d % 10));`.  The arithmetic happens in
`int`, the truncation to `uint8_t` at the return. -/
def dec2bcd (d : Nat) : Nat := (d / 10 * 16 + d % 10) % 256

/-- `bcd2dec` (ds3231.c lines 101-104): binary coded decimal to decimal,
`return ((b / 16 * 10) + (b % 16));`, truncated to `uint8_t`. -/
def bcd2dec (b : Nat) : Nat := (b / 16 * 10 + b % 16) % 256

/-- `struct time` (ds3231.h).  Every numeric field is a `uint8_t` in the
source, including `year`, whose doc comment nevertheless says
"Year [1900;2099]". -/
structure Time where
  sec : Nat
  min : Nat
  hour : Nat
  mday : Nat
  mon : Nat
  year : Nat
  wday : Nat
  am : Bool
  twelveHour : Nat
deriving DecidableEq

/-- The remote device's behaviour during one transceive call: `nack k` is
the acknowledgement bit it drives after the `k`-th byte the master writes
(addresses and data both count; `true` = not-acknowledge), and `data k` is
the `k`-th byte it supplies when the master reads. -/
structure Remote where
  nack : Nat → Bool
  data : Nat → Nat

/-- Observable outcome of one `TWI_start_transceiver_with_data` call:
the `uint8_t` value the function returns (`ret`), the `TWI_state.errorState`
it leaves behind, the buffer contents after the call (read data is stored
into the buffer in place), the bytes the master drove onto the bus, how
many bytes it clocked in from the remote, and whether `TWI_master_stop`
was reached. -/
structure TwiResult where
  ret : Bool
  errorState : Nat
  msg : List Nat
  written : List Nat
  reads : Nat
  stopSent : Bool
deriving DecidableEq

/-- The `do { ... } while (--msgSize);` loop of
`TWI_start_transceiver_with_data` (twi.c lines 154-199) followed by
`TWI_master_stop` when the loop completes.  The first argument of the
recursion is the number of loop iterations still to run (the do-while
body runs exactly `msgSize` times unless aborted); `msg` is the buffer,
`addressMode` mirrors `TWI_state.addressMode`, `i` is the cursor the C
code keeps in the `msg` pointer, `written` the bytes driven on the bus so
far, `reads` the count of bytes clocked in so far. -/
def TWI_loop (r : Remote) (masterWrite : Bool) :
    Nat → List Nat → Bool → Nat → List Nat → Nat → TwiResult
  | 0, msg, _, _, written, reads =>
      ⟨true, 0, msg, written, reads, true⟩
  | n + 1, msg, addressMode, i, written, reads =>
      if addressMode || masterWrite then
        -- write a byte (`USIDR = *(msg++)`) and sample the (N)ACK bit
        let b := msg.getD i 0
        if r.nack written.length then
          ⟨false,
           if addressMode then TWI_NO_ACK_ON_ADDRESS else TWI_NO_ACK_ON_DATA,
           msg, written ++ [b], reads, false⟩
        else
          TWI_loop r masterWrite n msg false (i + 1) (written ++ [b]) reads
      else
        -- masterRead cycle: `*(msg++) = TWI_master_transfer(...)`; the
        -- master then drives ACK (or NACK for the final byte) itself
        TWI_loop r masterWrite n (msg.set i (r.data reads % 256)) false
          (i + 1) written (reads + 1)

/-- `TWI_start_transceiver_with_data` (twi.c lines 79-200).  The
`PARAM_VERIFICATION` empty-buffer check is modelled; `masterWrite` is set
exactly when the low bit of the first buffer byte (the direction bit) is
clear. -/
def TWI_start_transceiver_with_data (r : Remote) (msg : List Nat)
    (msgSize : Nat) : TwiResult :=
  if msgSize ≤ 1 then
    ⟨false, TWI_NO_DATA, msg, [], 0, false⟩
  else
    let masterWrite := (msg.getD 0 0) &&& 1 == 0
    TWI_loop r masterWrite msgSize msg true 0 [] 0

/-- Outcome of `ds3231_get_time`: the returned `uint8_t`, the shared
`_time` after the call, the caller's struct (`none` when the early-return
paths leave `*time_` untouched), and the transfer requests issued
(buffer passed to the transceiver, with its size). -/
structure GetTimeResult where
  ret : Bool
  newTime : Time
  out : Option Time
  trace : List (List Nat × Nat)
deriving DecidableEq

/-- `ds3231_get_time` (ds3231.c lines 106-158).  `rm1`, `rm2` are the bus
behaviours during the two transceive calls; `st` is the shared `_time`
before the call.  Note the error checks are written
`if (TWI_start_transceiver_with_data(...)) return false;`, i.e. they
treat a NONZERO transceiver return as the error case. -/
def ds3231_get_time (rm1 rm2 : Remote) (st : Time) : GetTimeResult :=
  let buf0 : List Nat := [WRITE_ADD, SECDR, 0, 0, 0, 0, 0, 0]
  let t1 := TWI_start_transceiver_with_data rm1 buf0 2
  if t1.ret then ⟨false, st, none, [(buf0, 2)]⟩
  else
    let buf1 := t1.msg.set 0 READ_ADD
    let t2 := TWI_start_transceiver_with_data rm2 buf1 8
    if t2.ret then ⟨false, st, none, [(buf0, 2), (buf1, 8)]⟩
    else
      let m := t2.msg
      let sec := bcd2dec (m.getD 1 0)
      let mn := bcd2dec (m.getD 2 0)
      let hr := bcd2dec (m.getD 3 0)
      let wd := bcd2dec (m.getD 4 0)
      let md := bcd2dec (m.getD 5 0)
      let mo := bcd2dec (m.getD 6 0) &&& 0x1F
      let century := (m.getD 6 0 &&& 0x80) >>> 7
      let yr := (if century = 1 then 2000 + bcd2dec (m.getD 7 0)
                 else 1900 + bcd2dec (m.getD 7 0)) % 256
      let twAm : Nat × Bool :=
        if hr = 0 then (0, true)
        else if hr < 12 then (hr, true)
        else (hr - 12, false)
      let t : Time := ⟨sec, mn, hr, md, mo, yr, wd, twAm.2, twAm.1⟩
      ⟨true, t, some t, [(buf0, 2), (buf1, 8)]⟩

/-- Outcome of `ds3231_get_time_s`: the returned `uint8_t` and, for each
of the three output pointers, `none` when the pointer cell was never
written (either because the pointer was NULL or because of an early
return) or `some v` when `v` was stored through it. -/
structure GetTimeSResult where
  ret : Bool
  hourOut : Option Nat
  minOut : Option Nat
  secOut : Option Nat
  trace : List (List Nat × Nat)
deriving DecidableEq

/-- `ds3231_get_time_s` (ds3231.c lines 160-186).  `hourPtr`, `minPtr`,
`secPtr` say whether the corresponding output pointer is non-NULL; the
code guards each store with `if (sec) ... if (min) ... if (hour) ...`. -/
def ds3231_get_time_s (rm1 rm2 : Remote) (hourPtr minPtr secPtr : Bool) :
    GetTimeSResult :=
  let buf0 : List Nat := [WRITE_ADD, SECDR, 0, 0]
  let t1 := TWI_start_transceiver_with_data rm1 buf0 2
  if t1.ret then ⟨false, none, none, none, [(buf0, 2)]⟩
  else
    let buf1 := t1.msg.set 0 READ_ADD
    let t2 := TWI_start_transceiver_with_data rm2 buf1 4
    if t2.ret then ⟨false, none, none, none, [(buf0, 2), (buf1, 4)]⟩
    else
      ⟨true,
       if hourPtr then some (bcd2dec (t2.msg.getD 3 0)) else none,
       if minPtr then some (bcd2dec (t2.msg.getD 2 0)) else none,
       if secPtr then some (bcd2dec (t2.msg.getD 1 0)) else none,
       [(buf0, 2), (buf1, 4)]⟩

/-- The buffer `ds3231_set_time` builds and the mutated caller struct
(ds3231.c lines 188-212).  `time_->year` is a `uint8_t`, so the
comparison `time_->year > 2000` ranges over `0..255`, and the in-place
updates `time_->year - 2000` / `time_->year - 1900` wrap modulo 256
(modelled through `Int` subtraction). -/
def ds3231_set_time_buf (t : Time) : List Nat × Time :=
  let t2 : Time :=
    if t.year > 2000 then { t with year := (((t.year : Int) - 2000) % 256).toNat }
    else { t with year := (((t.year : Int) - 1900) % 256).toNat }
  let century : Nat := if t.year > 2000 then 0x80 else 0x00
  ([WRITE_ADD, SECDR, dec2bcd t2.sec, dec2bcd t2.min, dec2bcd t2.hour,
    dec2bcd t2.wday, dec2bcd t2.mday, (dec2bcd t2.mon + century) % 256,
    dec2bcd t2.year], t2)

/-- `ds3231_set_time` (ds3231.c lines 188-221): build the nine-byte
buffer, ship it in one transfer, propagate the (inverted, see
`ds3231_get_time`) error check.  Returns the `uint8_t` result, the
mutated caller struct and the transfer trace. -/
def ds3231_set_time (rm : Remote) (t : Time) : Bool × Time × List (List Nat × Nat) :=
  let bt := ds3231_set_time_buf t
  let r := TWI_start_transceiver_with_data rm bt.1 9
  if r.ret then (false, bt.2, [(bt.1, 9)])
  else (true, bt.2, [(bt.1, 9)])

/-- The year-decoding rule of `ds3231_get_time` (ds3231.c lines 135-136),
before the result is truncated into the `uint8_t` field `_time.year`:
`century = (msgBuf[6] & 0x80) >> 7;`
`(century == 1) ? 2000 + bcd2dec(msgBuf[7]) : 1900 + bcd2dec(msgBuf[7])`. -/
def year_decode (monthByte yearByte : Nat) : Nat :=
  if (monthByte &&& 0x80) >>> 7 = 1 then 2000 + bcd2dec yearByte
  else 1900 + bcd2dec yearByte

/-- The update `ds3231_SQW_enable` applies to the control byte it has in
`msgBuf[1]` before writing it back (ds3231.c lines 295-303):
enable: `msgBuf[1] |= 0x40; msgBuf[1] &= 0xFB;` (the second line's code
comment says "Disable alarm interrupts"); disable: `msgBuf[1] &= 0xBF;`. -/
def ds3231_SQW_enable_update (ctrl : Nat) (enable : Bool) : Nat :=
  if enable then (ctrl ||| 0x40) &&& 0xFB
  else ctrl &&& 0xBF

/-- The `PARAM_VERIFICATION` block of `ds3231_set_alarm_s` (ds3231.c
lines 400-436; `PARAM_VERIFICATION` is defined in twi.h, which ds3231.c
includes).  The `intrpt > 1` test on a `bool` can never fire. -/
def set_alarm_s_valid (day hour mn sc alarm mode : Nat) : Bool :=
  !(mode == ALARM_WDAY_M && day > 7) &&
  !(mode == ALARM_MDAY_M && day > 31) &&
  !(hour > 23) && !(mn > 59) && !(sc > 59) && !(alarm > 1)

/-- The interrupt-enable update `ds3231_set_alarm_s` applies to the
control byte (ds3231.c lines 456-463): `msgBuf[1] |= 1 << alarm;` to
enable, `msgBuf[1] &= ~(1 << alarm);` to disable (for a byte operand,
`& ~(1 << alarm)` is `&&& (0xFF ^^^ (1 <<< alarm))`). -/
def set_alarm_s_ctrl_update (ctrl alarm : Nat) (intrpt : Bool) : Nat :=
  if intrpt then ctrl ||| (1 <<< alarm)
  else ctrl &&& (0xFF ^^^ (1 <<< alarm))

/-- The four alarm-1 register bytes `ds3231_set_alarm_s` writes
(ds3231.c lines 479-484), in register order: seconds, minutes, hours,
day. -/
structure Alarm1Regs where
  secReg : Nat
  minReg : Nat
  hourReg : Nat
  dayReg : Nat
deriving DecidableEq

/-- The three alarm-2 register bytes `ds3231_set_alarm_s` writes
(ds3231.c lines 488-492), in register order: minutes, hours, day. -/
structure Alarm2Regs where
  minReg : Nat
  hourReg : Nat
  dayReg : Nat
deriving DecidableEq

/-- Alarm-1 encoding of `ds3231_set_alarm_s` (ds3231.c lines 479-484):
each byte is the BCD field value with the mask bit (0x80) ORed in
according to the mode comparison, and the weekday flag (0x40) on the day
byte for `ALARM_WDAY_M`. -/
def alarm1_encode (day hour mn sc mode : Nat) : Alarm1Regs :=
  ⟨dec2bcd sc ||| (if mode = ALARM_SEC then 0x80 else 0x00),
   dec2bcd mn ||| (if mode ≤ ALARM_SEC_M then 0x80 else 0x00),
   dec2bcd hour ||| (if mode ≤ ALARM_MIN_M then 0x80 else 0x00),
   dec2bcd day ||| (if mode ≤ ALARM_HOUR_M then 0x80 else 0x00)
              ||| (if mode = ALARM_WDAY_M then 0x40 else 0x00)⟩

/-- Alarm-2 encoding of `ds3231_set_alarm_s` (ds3231.c lines 488-492). -/
def alarm2_encode (day hour mn mode : Nat) : Alarm2Regs :=
  ⟨dec2bcd mn ||| (if mode = ALARM_MIN then 0x80 else 0x00),
   dec2bcd hour ||| (if mode ≤ ALARM_MIN_M then 0x80 else 0x00),
   dec2bcd day ||| (if mode ≤ ALARM_HOUR_M then 0x80 else 0x00)
              ||| (if mode = ALARM_WDAY_M then 0x40 else 0x00)⟩

/-- The decoded alarm-1 configuration `ds3231_get_alarm_s` stores through
its output pointers. -/
structure Alarm1Out where
  sec : Nat
  min : Nat
  hour : Nat
  day : Nat
  mode : Nat
deriving DecidableEq

/-- The decoded alarm-2 configuration `ds3231_get_alarm_s` stores through
its output pointers (no seconds field). -/
structure Alarm2Out where
  min : Nat
  hour : Nat
  day : Nat
  mode : Nat
deriving DecidableEq

/-- Alarm-1 decoding of `ds3231_get_alarm_s` (ds3231.c lines 557-583):
`b1..b4` are the bytes read from registers 0x07..0x0A.  The mode is
derived by walking the mask bits from the day register down. -/
def alarm1_decode (b1 b2 b3 b4 : Nat) : Alarm1Out :=
  ⟨bcd2dec (b1 &&& 0x7F),
   bcd2dec (b2 &&& 0x7F),
   bcd2dec (b3 &&& 0x7F),
   bcd2dec (b4 &&& (if b4 &&& 0x40 = 0 then 0x3F else 0x0F)),
   if b4 &&& 0x80 = 0 then
     (if b4 &&& 0x40 = 0 then ALARM_MDAY_M else ALARM_WDAY_M)
   else if b3 &&& 0x80 = 0 then ALARM_HOUR_M
   else if b2 &&& 0x80 = 0 then ALARM_MIN_M
   else if b1 &&& 0x80 = 0 then ALARM_SEC_M
   else ALARM_SEC⟩

/-- Alarm-2 decoding of `ds3231_get_alarm_s` (ds3231.c lines 584-605):
`b1..b3` are the bytes read from registers 0x0B..0x0D. -/
def alarm2_decode (b1 b2 b3 : Nat) : Alarm2Out :=
  ⟨bcd2dec (b1 &&& 0x7F),
   bcd2dec (b2 &&& 0x7F),
   bcd2dec (b3 &&& (if b3 &&& 0x40 = 0 then 0x3F else 0x0F)),
   if b3 &&& 0x80 = 0 then
     (if b3 &&& 0x40 = 0 then ALARM_MDAY_M else ALARM_WDAY_M)
   else if b2 &&& 0x80 = 0 then ALARM_HOUR_M
   else if b1 &&& 0x80 = 0 then ALARM_MIN_M
   else ALARM_MIN⟩

/-- The value `ds3231_get_alarm_s` stores through its `intrpt` output
pointer (ds3231.c line 538):
`*intrpt = (msgBuf[1] & ~(1 << alarm));` — the control byte ANDed with
the COMPLEMENT of the selected alarm's bit, converted to `bool`
(nonzero = true).  For a byte operand `~(1 << alarm)` acts as
`0xFF ^^^ (1 <<< alarm)`. -/
def get_alarm_s_intrpt (ctrl alarm : Nat) : Bool :=
  decide (ctrl &&& (0xFF ^^^ (1 <<< alarm)) ≠ 0)

/-- Outcome of `ds3231_check_alarm`: the returned `uint8_t`, the value
stored through the `active` output pointer, and the transfer trace. -/
structure CheckAlarmResult where
  ret : Bool
  active : Bool
  trace : List (List Nat × Nat)
deriving DecidableEq

/-- `ds3231_check_alarm` (ds3231.c lines 610-633).  Note the source
assigns `msgBuf[0] = WRITE_ADD;` and then immediately
`msgBuf[0] = STSDR;` — the SAME cell twice — then issues a single
two-byte transfer and tests `msgBuf[1] & (1 << alarm)`. -/
def ds3231_check_alarm (rm : Remote) (alarm : Nat) : CheckAlarmResult :=
  let buf0 : List Nat := [0, 0]
  let buf1 := (buf0.set 0 WRITE_ADD).set 0 STSDR
  let t := TWI_start_transceiver_with_data rm buf1 2
  if t.ret then ⟨false, false, [(buf1, 2)]⟩
  else ⟨true, decide ((t.msg.getD 1 0) &&& (1 <<< alarm) ≠ 0), [(buf1, 2)]⟩

/-- Fixture: a remote that acknowledges every byte and supplies the
realistic register snapshot 0x30,0x59,0x23,0x04,0x20,0x86,0x24 (i.e.
2024-06-20, a Thursday, 23:59:30, century bit set) when read. -/
def rmOk : Remote :=
  ⟨fun _ => false, fun k => [0x30, 0x59, 0x23, 0x04, 0x20, 0x86, 0x24].getD k 0⟩

/-- Fixture: a remote that not-acknowledges every byte (a silent bus). -/
def rmBad : Remote := ⟨fun _ => true, fun _ => 0⟩

/-- Fixture: a shared-state `_time` value used as the state before calls
in concrete evaluations. -/
def st0 : Time := ⟨1, 2, 3, 4, 5, 6, 7, true, 3⟩

/-- Fixture: a remote that acknowledges the address byte and the first
data byte, then not-acknowledges the second data byte. -/
def rmNack2 : Remote := ⟨fun j => j == 2, fun _ => 0⟩

/-- The first `n` buffer cells, i.e. the bytes a write transfer has
driven on the bus after the address byte and `n - 1` data bytes. -/
def busBytes (msg : List Nat) (n : Nat) : List Nat :=
  (List.range n).map (fun j => msg.getD j 0)

theorem busBytes_length (msg : List Nat) (n : Nat) :
    (busBytes msg n).length = n := by
  simp [busBytes]

theorem busBytes_succ (msg : List Nat) (n : Nat) :
    busBytes msg (n + 1) = busBytes msg n ++ [msg.getD n 0] := by
  simp [busBytes, List.range_succ]

/-- Running the transfer loop in write mode past `d` acknowledged bytes
just advances the cursor and the bus log. -/
theorem TWI_loop_write_skip (r : Remote) (msg : List Nat) :
    ∀ d n i, (∀ j, i ≤ j → j < i + d → r.nack j = false) → d ≤ n →
      TWI_loop r true n msg false i (busBytes msg i) 0 =
        TWI_loop r true (n - d) msg false (i + d) (busBytes msg (i + d)) 0 := by
  intro d
  induction d with
  | zero =>
      intro n i _ _
      simp
  | succ d ih =>
      intro n i hok hdn
      obtain ⟨m, rfl⟩ : ∃ m, n = m + 1 := ⟨n - 1, by omega⟩
      have hstep : TWI_loop r true (m + 1) msg false i (busBytes msg i) 0 =
          TWI_loop r true m msg false (i + 1) (busBytes msg (i + 1)) 0 := by
        have hni : r.nack (busBytes msg i).length = false := by
          rw [busBytes_length]
          exact hok i le_rfl (by omega)
        simp only [TWI_loop, Bool.or_true, if_true]
        simp [hni, busBytes_succ]
      rw [hstep]
      have h2 := ih m (i + 1) (fun j hj1 hj2 => hok j (by omega) (by omega)) (by omega)
      rw [h2]
      have e1 : m - d = m + 1 - (d + 1) := by omega
      have e2 : i + 1 + d = i + (d + 1) := by omega
      rw [e1, e2]

/-- A not-acknowledged address byte aborts the transfer with the
address-specific error, with only the address byte on the bus, nothing
read, and no stop condition. -/
theorem twi_nack_address_helper (r : Remote) (msg : List Nat) (msgSize : Nat)
    (h2 : 2 ≤ msgSize) (hn : r.nack 0 = true) :
    TWI_start_transceiver_with_data r msg msgSize =
      ⟨false, TWI_NO_ACK_ON_ADDRESS, msg, [msg.getD 0 0], 0, false⟩ := by
  obtain ⟨m, rfl⟩ : ∃ m, msgSize = m + 1 := ⟨msgSize - 1, by omega⟩
  simp only [TWI_start_transceiver_with_data]
  rw [if_neg (by omega)]
  simp only [TWI_loop, Bool.true_or, if_true]
  simp [hn]

/-- In a write transfer whose address byte and first `k - 1` data bytes
are acknowledged, a not-acknowledged `k`-th byte aborts with the
data-specific error, the first `k + 1` buffer bytes on the bus, nothing
read, and no stop condition. -/
theorem twi_nack_data_helper (r : Remote) (msg : List Nat) (msgSize k : Nat)
    (hw : msg.getD 0 0 &&& 1 = 0) (h2 : 2 ≤ msgSize) (h1 : 1 ≤ k)
    (hk : k < msgSize) (hprev : ∀ j, j < k → r.nack j = false)
    (hn : r.nack k = true) :
    TWI_start_transceiver_with_data r msg msgSize =
      ⟨false, TWI_NO_ACK_ON_DATA, msg, busBytes msg (k + 1), 0, false⟩ := by
  obtain ⟨m, rfl⟩ : ∃ m, msgSize = m + 1 := ⟨msgSize - 1, by omega⟩
  have hmw : (msg.getD 0 0 &&& 1 == 0) = true := by rw [hw]; rfl
  simp only [TWI_start_transceiver_with_data, hmw]
  rw [if_neg (by omega)]
  have hn0 : r.nack 0 = false := hprev 0 (by omega)
  have hfirst : TWI_loop r true (m + 1) msg true 0 [] 0 =
      TWI_loop r true m msg false 1 (busBytes msg 1) 0 := by
    simp only [TWI_loop, Bool.true_or, if_true]
    simp [hn0, busBytes, List.range_succ]
  rw [hfirst]
  have hskip := TWI_loop_write_skip r msg (k - 1) m 1
    (fun j hj1 hj2 => hprev j (by omega)) (by omega)
  have ek : 1 + (k - 1) = k := by omega
  rw [ek] at hskip
  rw [hskip]
  obtain ⟨p, hp⟩ : ∃ p, m - (k - 1) = p + 1 := ⟨m - k, by omega⟩
  rw [hp]
  have hnk : r.nack (busBytes msg k).length = true := by
    rw [busBytes_length]
    exact hn
  simp only [TWI_loop, Bool.or_true, if_true]
  simp [hnk, busBytes_succ]

theorem dec2bcd_lt_128 (d : Nat) (h : d ≤ 79) : dec2bcd d < 128 := by
  unfold dec2bcd
  have h1 : d / 10 * 16 + d % 10 < 128 := by omega
  omega

theorem dec2bcd_lt_64 (d : Nat) (h : d ≤ 39) : dec2bcd d < 64 := by
  unfold dec2bcd
  have h1 : d / 10 * 16 + d % 10 < 64 := by omega
  omega

theorem testBit7_false {x : Nat} (hx : x < 128) : x.testBit 7 = false := by
  have h128 : (128 : Nat) = 2 ^ 7 := by norm_num
  exact Nat.testBit_lt_two_pow (h128 ▸ hx)

theorem testBit6_false {x : Nat} (hx : x < 64) : x.testBit 6 = false := by
  have h64 : (64 : Nat) = 2 ^ 6 := by norm_num
  exact Nat.testBit_lt_two_pow (h64 ▸ hx)

/-- The top bit of a BCD field byte with an optional mask bit ORed in is
exactly the mask decision. -/
theorem or_mask_testBit7 (x : Nat) (hx : x < 128) (c : Prop) [Decidable c] :
    (x ||| (if c then 0x80 else 0x00)).testBit 7 = decide c := by
  by_cases h : c
  · simp [Nat.testBit_lor, testBit7_false hx, h]
    decide
  · simp [Nat.testBit_lor, testBit7_false hx, h]

/-- Top bit of the day byte, which carries both an optional mask bit and
an optional weekday flag. -/
theorem day_byte_testBit7 (x : Nat) (hx : x < 128) (c d : Prop)
    [Decidable c] [Decidable d] :
    (x ||| (if c then 0x80 else 0x00) ||| (if d then 0x40 else 0x00)).testBit 7 =
      decide c := by
  by_cases hc : c <;> by_cases hd : d <;>
    simp [Nat.testBit_lor, testBit7_false hx, hc, hd] <;> decide

/-- Bit 6 of the day byte is exactly the weekday-flag decision. -/
theorem day_byte_testBit6 (x : Nat) (hx : x < 64) (c d : Prop)
    [Decidable c] [Decidable d] :
    (x ||| (if c then 0x80 else 0x00) ||| (if d then 0x40 else 0x00)).testBit 6 =
      decide d := by
  by_cases hc : c <;> by_cases hd : d <;>
    simp [Nat.testBit_lor, testBit6_false hx, hc, hd] <;> decide

/-- Shorthand: encoding an alarm-1 configuration and decoding the four
bytes reproduces the configuration. -/
abbrev alarm1_roundtrip (day hour mn sc mode : Nat) : Prop :=
  alarm1_decode (alarm1_encode day hour mn sc mode).secReg
    (alarm1_encode day hour mn sc mode).minReg
    (alarm1_encode day hour mn sc mode).hourReg
    (alarm1_encode day hour mn sc mode).dayReg = ⟨sc, mn, hour, day, mode⟩

/-- Shorthand: encoding an alarm-2 configuration and decoding the three
bytes reproduces the configuration. -/
abbrev alarm2_roundtrip (day hour mn mode : Nat) : Prop :=
  alarm2_decode (alarm2_encode day hour mn mode).minReg
    (alarm2_encode day hour mn mode).hourReg
    (alarm2_encode day hour mn mode).dayReg = ⟨mn, hour, day, mode⟩

/-- C9: for every decimal value d in 0-99, converting with `dec2bcd` and
back with `bcd2dec` yields d again. -/
theorem bcd_roundtrip : ∀ d, d ≤ 99 → bcd2dec (dec2bcd d) = d := by decide

/-- Witness for `bcd_roundtrip` at d = 42. -/
theorem bcd_roundtrip_witness : bcd2dec (dec2bcd 42) = 42 :=
  bcd_roundtrip 42 (by decide)

/-- C1: the claim fails on the code, and the failure is a bug, not a
different intent.  `TWI_start_transceiver_with_data` returns true (1) on
a completed transfer (twi.c line 199) and false (0) on a
not-acknowledged one, but every check in ds3231.c reads
`if (TWI_start_transceiver_with_data(...)) return false;`.  Concretely:
against a remote that acknowledges everything, both transfers of
`ds3231_get_time` return true, yet the function returns FALSE, leaves
the shared `_time` untouched and never writes the caller's struct —
after the FIRST transfer, so the 8-byte read is not even issued.
Against a remote that acknowledges nothing (both transfers fail), the
function returns TRUE and stores a decode of the leftover buffer. -/
theorem ds3231_get_time_inverts_transfer_status :
    (TWI_start_transceiver_with_data rmOk [WRITE_ADD, SECDR, 0, 0, 0, 0, 0, 0] 2).ret
      = true ∧
    (TWI_start_transceiver_with_data rmOk
      (([WRITE_ADD, SECDR, 0, 0, 0, 0, 0, 0] : List Nat).set 0 READ_ADD) 8).ret
      = true ∧
    ds3231_get_time rmOk rmOk st0 =
      ⟨false, st0, none, [([WRITE_ADD, SECDR, 0, 0, 0, 0, 0, 0], 2)]⟩ ∧
    (TWI_start_transceiver_with_data rmBad [WRITE_ADD, SECDR, 0, 0, 0, 0, 0, 0] 2).ret
      = false ∧
    (ds3231_get_time rmBad rmBad st0).ret = true ∧
    (ds3231_get_time rmBad rmBad st0).out = some ⟨0, 0, 0, 0, 0, 108, 0, true, 0⟩ := by
  decide

/-- C2: the claim fails on the code because `struct time.year` is a
`uint8_t`: a caller storing 2024 actually stores 232, the dead
comparison `time_->year > 2000` never fires, and the century flag stays
0x00 (bit 7 of the month byte clear) for EVERY input.  For year 2060
(stored 12) even the decode rule of `ds3231_get_time` gives back 1900.
For 1950 the claim's clear-bit half still works, isolating the failure
to the 2000-2099 range. -/
theorem ds3231_set_time_century_dead :
    (2024 % 256 = 232) ∧
    ((ds3231_set_time_buf { st0 with year := 2024 % 256 }).1.getD 7 0).testBit 7
      = false ∧
    year_decode ((ds3231_set_time_buf { st0 with year := 2060 % 256 }).1.getD 7 0)
      ((ds3231_set_time_buf { st0 with year := 2060 % 256 }).1.getD 8 0) = 1900 ∧
    (1900 : Nat) ≠ 2060 ∧
    year_decode ((ds3231_set_time_buf { st0 with year := 1950 % 256 }).1.getD 7 0)
      ((ds3231_set_time_buf { st0 with year := 1950 % 256 }).1.getD 8 0) = 1950 := by
  decide

/-- C3 counterexample: for mode `ALARM_MIN` (alarm 2, the only alarm it
applies to) encoding the fixed (day=15, hour=6, min=30) configuration
and decoding the written bytes yields mode `ALARM_MDAY_M`, not
`ALARM_MIN`, because the encoder leaves the hour and day mask bits
clear. -/
theorem alarm2_min_roundtrip_counterexample :
    (alarm2_decode (alarm2_encode 15 6 30 ALARM_MIN).minReg
      (alarm2_encode 15 6 30 ALARM_MIN).hourReg
      (alarm2_encode 15 6 30 ALARM_MIN).dayReg).mode = ALARM_MDAY_M ∧
    ALARM_MDAY_M ≠ ALARM_MIN := by decide

/-- C3 amended: the (day=15, hour=6, min=30, sec=0) round trip holds for
`ALARM_SEC`, `ALARM_SEC_M`, `ALARM_MIN_M`, `ALARM_HOUR_M`,
`ALARM_MDAY_M` on their applicable alarms.  For `ALARM_WDAY_M`, day=15
exceeds the weekday range and `ds3231_set_alarm_s`'s parameter
verification rejects the call before anything is written (with a valid
weekday such as 5 the round trip holds).  For `ALARM_MIN`, decoding the
written bytes returns `ALARM_MDAY_M` with the field values intact. -/
theorem alarm_roundtrip_amended :
    alarm1_roundtrip 15 6 30 0 ALARM_SEC ∧
    alarm1_roundtrip 15 6 30 0 ALARM_SEC_M ∧
    alarm1_roundtrip 15 6 30 0 ALARM_MIN_M ∧
    alarm1_roundtrip 15 6 30 0 ALARM_HOUR_M ∧
    alarm1_roundtrip 15 6 30 0 ALARM_MDAY_M ∧
    set_alarm_s_valid 15 6 30 0 ALARM_1 ALARM_WDAY_M = false ∧
    alarm1_roundtrip 5 6 30 0 ALARM_WDAY_M ∧
    alarm2_roundtrip 15 6 30 ALARM_MIN_M ∧
    alarm2_roundtrip 15 6 30 ALARM_HOUR_M ∧
    alarm2_roundtrip 15 6 30 ALARM_MDAY_M ∧
    set_alarm_s_valid 15 6 30 0 ALARM_2 ALARM_WDAY_M = false ∧
    alarm2_roundtrip 5 6 30 ALARM_WDAY_M ∧
    alarm2_decode (alarm2_encode 15 6 30 ALARM_MIN).minReg
      (alarm2_encode 15 6 30 ALARM_MIN).hourReg
      (alarm2_encode 15 6 30 ALARM_MIN).dayReg = ⟨30, 6, 15, ALARM_MDAY_M⟩ := by
  decide

/-- C4: the claim fails on the code and the code contradicts its own
comment ("Get the 'Alarm Enabled' bit") and its own writer:
`ds3231_get_alarm_s` line 538 computes `msgBuf[1] & ~(1 << alarm)`,
which masks the selected alarm's bit OUT and tests every other bit.  A
control byte 0x01 (A1IE set, exactly what `ds3231_set_alarm_s` produces
when enabling alarm 1's interrupt on a clear register) reports false for
alarm 1, while 0x04 (INTCN set, A1IE clear) reports true. -/
theorem get_alarm_s_intrpt_wrong_bit :
    get_alarm_s_intrpt 0x01 ALARM_1 = false ∧
    Nat.testBit 0x01 ALARM_1 = true ∧
    get_alarm_s_intrpt 0x04 ALARM_1 = true ∧
    Nat.testBit 0x04 ALARM_1 = false ∧
    get_alarm_s_intrpt 0x02 ALARM_2 = false ∧
    Nat.testBit 0x02 ALARM_2 = true ∧
    set_alarm_s_ctrl_update 0x00 ALARM_1 true = 0x01 := by decide

/-- C5: the claim fails on the code: `ds3231_check_alarm` assigns
`msgBuf[0] = WRITE_ADD;` and then `msgBuf[0] = STSDR;` (the same cell —
its comment says it meant to store the register address in the buffer),
so its single transfer carries the status-register ADDRESS 0x0F as the
bus address byte.  0x0F is neither of the DS3231's address bytes and
selects 7-bit device 0x07, not 0x68, so the status register is never
read; the bit the function then tests comes from the untouched buffer
cell. -/
theorem check_alarm_never_reads_status :
    (ds3231_check_alarm rmOk ALARM_1).trace = [([STSDR, 0], 2)] ∧
    STSDR ≠ WRITE_ADD ∧
    STSDR ≠ READ_ADD ∧
    STSDR >>> 1 ≠ WRITE_ADD >>> 1 ∧
    (ds3231_check_alarm rmBad ALARM_2).trace = [([STSDR, 0], 2)] ∧
    (ds3231_check_alarm rmBad ALARM_2).active = false := by decide

/-- C6 counterexample: encoding the spec's own scenario (day=5, hour=9,
min=0, sec=0, alarm 1, mode `ALARM_HOUR_M`) leaves the mask bit CLEAR on
the minute and second registers (the claim says both are set) and sets
it on the day register (which the claim's "at or above the granularity"
reading leaves clear). -/
theorem alarm1_hour_mode_mask_counterexample :
    (alarm1_encode 5 9 0 0 ALARM_HOUR_M).minReg.testBit 7 = false ∧
    (alarm1_encode 5 9 0 0 ALARM_HOUR_M).secReg.testBit 7 = false ∧
    (alarm1_encode 5 9 0 0 ALARM_HOUR_M).hourReg.testBit 7 = false ∧
    (alarm1_encode 5 9 0 0 ALARM_HOUR_M).dayReg.testBit 7 = true := by decide

/-- C6 amended: for in-range field values, `ds3231_set_alarm_s` sets the
mask bit in exactly the registers COARSER than the chosen mode's
granularity (the registers the match must ignore): the second mask only
for `ALARM_SEC`, the minute mask for modes up to `ALARM_SEC_M` (and, on
alarm 2, for `ALARM_MIN`), the hour mask for modes up to `ALARM_MIN_M`,
the day mask for modes up to `ALARM_HOUR_M`; the day-type flag is set
only for weekday mode.  In particular `ALARM_HOUR_M` sets only the day
register's mask bit. -/
theorem alarm_mask_bits (day hour mn sc mode : Nat)
    (hd : day ≤ 31) (hh : hour ≤ 23) (hm : mn ≤ 59) (hs : sc ≤ 59) :
    (alarm1_encode day hour mn sc mode).secReg.testBit 7 = decide (mode = ALARM_SEC) ∧
    (alarm1_encode day hour mn sc mode).minReg.testBit 7 = decide (mode ≤ ALARM_SEC_M) ∧
    (alarm1_encode day hour mn sc mode).hourReg.testBit 7 = decide (mode ≤ ALARM_MIN_M) ∧
    (alarm1_encode day hour mn sc mode).dayReg.testBit 7 = decide (mode ≤ ALARM_HOUR_M) ∧
    (alarm1_encode day hour mn sc mode).dayReg.testBit 6 = decide (mode = ALARM_WDAY_M) ∧
    (alarm2_encode day hour mn mode).minReg.testBit 7 = decide (mode = ALARM_MIN) ∧
    (alarm2_encode day hour mn mode).hourReg.testBit 7 = decide (mode ≤ ALARM_MIN_M) ∧
    (alarm2_encode day hour mn mode).dayReg.testBit 7 = decide (mode ≤ ALARM_HOUR_M) ∧
    (alarm2_encode day hour mn mode).dayReg.testBit 6 = decide (mode = ALARM_WDAY_M) := by
  have hsc : dec2bcd sc < 128 := dec2bcd_lt_128 sc (by omega)
  have hmn : dec2bcd mn < 128 := dec2bcd_lt_128 mn (by omega)
  have hhr : dec2bcd hour < 128 := dec2bcd_lt_128 hour (by omega)
  have hd64 : dec2bcd day < 64 := dec2bcd_lt_64 day (by omega)
  have hd128 : dec2bcd day < 128 := by omega
  refine ⟨?_, ?_, ?_, ?_, ?_, ?_, ?_, ?_, ?_⟩ <;>
    simp only [alarm1_encode, alarm2_encode]
  · exact or_mask_testBit7 _ hsc _
  · exact or_mask_testBit7 _ hmn _
  · exact or_mask_testBit7 _ hhr _
  · exact day_byte_testBit7 _ hd128 _ _
  · exact day_byte_testBit6 _ hd64 _ _
  · exact or_mask_testBit7 _ hmn _
  · exact or_mask_testBit7 _ hhr _
  · exact day_byte_testBit7 _ hd128 _ _
  · exact day_byte_testBit6 _ hd64 _ _

/-- Witness for `alarm_mask_bits` at the spec's scenario (day=15,
hour=6, min=30, sec=0, mode `ALARM_HOUR_M`). -/
theorem alarm_mask_bits_witness :
    (alarm1_encode 15 6 30 0 ALARM_HOUR_M).minReg.testBit 7 = false ∧
    (alarm1_encode 15 6 30 0 ALARM_HOUR_M).secReg.testBit 7 = false ∧
    (alarm1_encode 15 6 30 0 ALARM_HOUR_M).dayReg.testBit 7 = true ∧
    (alarm1_encode 15 6 30 0 ALARM_HOUR_M).dayReg.testBit 6 = false := by
  have h := alarm_mask_bits 15 6 30 0 ALARM_HOUR_M
    (by decide) (by decide) (by decide) (by decide)
  exact ⟨h.2.1, h.1, h.2.2.2.1, h.2.2.2.2.1⟩

/-- C7 counterexample: with the control byte read back as 0x04 (only the
INTCN bit set) and enable = true, `ds3231_SQW_enable` writes back 0x40:
bit 2, which was set in the byte read and is not the square-wave bit 6,
is no longer set in the byte written. -/
theorem sqw_enable_not_frame_counterexample :
    Nat.testBit 0x04 2 = true ∧
    (ds3231_SQW_enable_update 0x04 true).testBit 2 = false ∧
    (2 : Nat) ≠ 6 := by decide

set_option maxRecDepth 4096 in
/-- C7 amended: when disabling, the byte written back differs from the
byte read only in bit 6; when enabling, bit 6 is set AND bit 2 (INTCN,
"Disable alarm interrupts" per the code comment) is cleared, and every
bit other than 6 and 2 is preserved. -/
theorem sqw_update_frame :
    ∀ ctrl < 256, ∀ i < 8,
      ((ds3231_SQW_enable_update ctrl true).testBit i =
        if i = 6 then true else if i = 2 then false else ctrl.testBit i) ∧
      ((ds3231_SQW_enable_update ctrl false).testBit i =
        if i = 6 then false else ctrl.testBit i) := by decide

/-- Witness for `sqw_update_frame` at ctrl = 0x55. -/
theorem sqw_update_frame_witness :
    (ds3231_SQW_enable_update 0x55 true).testBit 6 = true ∧
    (ds3231_SQW_enable_update 0x55 false).testBit 0 = Nat.testBit 0x55 0 :=
  ⟨(sqw_update_frame 0x55 (by decide) 6 (by decide)).1,
   (sqw_update_frame 0x55 (by decide) 0 (by decide)).2⟩

/-- C8: a not-acknowledged address byte aborts the transceive with the
distinct error `TWI_NO_ACK_ON_ADDRESS`, only the address byte ever on
the bus, no byte read and no stop condition; a not-acknowledged data
byte in a write transfer aborts with the distinct error
`TWI_NO_ACK_ON_DATA`, mid-transfer (exactly the address byte and the
data bytes up to the refused one on the bus), again without a stop
condition. -/
theorem twi_nack_distinct_abort :
    (∀ (r : Remote) (msg : List Nat) (msgSize : Nat),
      2 ≤ msgSize → r.nack 0 = true →
      TWI_start_transceiver_with_data r msg msgSize =
        ⟨false, TWI_NO_ACK_ON_ADDRESS, msg, [msg.getD 0 0], 0, false⟩) ∧
    (∀ (r : Remote) (msg : List Nat) (msgSize k : Nat),
      msg.getD 0 0 &&& 1 = 0 → 2 ≤ msgSize → 1 ≤ k → k < msgSize →
      (∀ j, j < k → r.nack j = false) → r.nack k = true →
      TWI_start_transceiver_with_data r msg msgSize =
        ⟨false, TWI_NO_ACK_ON_DATA, msg, busBytes msg (k + 1), 0, false⟩) :=
  ⟨twi_nack_address_helper, twi_nack_data_helper⟩

/-- Witness for `twi_nack_distinct_abort`: a silent remote refusing the
address of a pointer-set write, and a remote refusing the second data
byte of the three-byte control-register write. -/
theorem twi_nack_distinct_abort_witness :
    TWI_start_transceiver_with_data rmBad [0xD0, 0x00] 2 =
      ⟨false, TWI_NO_ACK_ON_ADDRESS, [0xD0, 0x00], [0xD0], 0, false⟩ ∧
    TWI_start_transceiver_with_data rmNack2 [0xD0, 0x0E, 0x40] 3 =
      ⟨false, TWI_NO_ACK_ON_DATA, [0xD0, 0x0E, 0x40], [0xD0, 0x0E, 0x40], 0, false⟩ :=
  ⟨twi_nack_distinct_abort.1 rmBad [0xD0, 0x00] 2 (by decide) rfl,
   twi_nack_distinct_abort.2 rmNack2 [0xD0, 0x0E, 0x40] 3 2 (by decide) (by decide)
     (by decide) (by decide) (by decide) rfl⟩

/-- C10: `ds3231_get_time_s` never stores through an output pointer that
is NULL, and on the code path that reaches the decode step (both
transceiver checks passed) it has issued both bus transfers and stores
through exactly the non-NULL pointers the BCD-decoded bytes of the read
buffer. -/
theorem ds3231_get_time_s_null_safe (rm1 rm2 : Remote) (hp mp sp : Bool) :
    (hp = false → (ds3231_get_time_s rm1 rm2 hp mp sp).hourOut = none) ∧
    (mp = false → (ds3231_get_time_s rm1 rm2 hp mp sp).minOut = none) ∧
    (sp = false → (ds3231_get_time_s rm1 rm2 hp mp sp).secOut = none) ∧
    ((ds3231_get_time_s rm1 rm2 hp mp sp).ret = true →
      (ds3231_get_time_s rm1 rm2 hp mp sp).trace.length = 2 ∧
      (hp = true → (ds3231_get_time_s rm1 rm2 hp mp sp).hourOut =
        some (bcd2dec ((TWI_start_transceiver_with_data rm2
          ((TWI_start_transceiver_with_data rm1 [WRITE_ADD, SECDR, 0, 0] 2).msg.set
            0 READ_ADD) 4).msg.getD 3 0))) ∧
      (mp = true → (ds3231_get_time_s rm1 rm2 hp mp sp).minOut =
        some (bcd2dec ((TWI_start_transceiver_with_data rm2
          ((TWI_start_transceiver_with_data rm1 [WRITE_ADD, SECDR, 0, 0] 2).msg.set
            0 READ_ADD) 4).msg.getD 2 0))) ∧
      (sp = true → (ds3231_get_time_s rm1 rm2 hp mp sp).secOut =
        some (bcd2dec ((TWI_start_transceiver_with_data rm2
          ((TWI_start_transceiver_with_data rm1 [WRITE_ADD, SECDR, 0, 0] 2).msg.set
            0 READ_ADD) 4).msg.getD 1 0)))) := by
  cases h1 : (TWI_start_transceiver_with_data rm1 [WRITE_ADD, SECDR, 0, 0] 2).ret with
  | true => simp [ds3231_get_time_s, h1]
  | false =>
      cases h2 : (TWI_start_transceiver_with_data rm2
          ((TWI_start_transceiver_with_data rm1 [WRITE_ADD, SECDR, 0, 0] 2).msg.set
            0 READ_ADD) 4).ret with
      | true => simp [ds3231_get_time_s, h1, h2]
      | false =>
          cases hp <;> cases mp <;> cases sp <;> simp [ds3231_get_time_s, h1, h2]

/-- Witness for `ds3231_get_time_s_null_safe`: a call with a NULL hour
pointer never writes the hour output. -/
theorem ds3231_get_time_s_null_safe_witness :
    (ds3231_get_time_s rmBad rmBad false true true).hourOut = none :=
  (ds3231_get_time_s_null_safe rmBad rmBad false true true).1 rfl

end DS3231
